import Mathlib

/-
Verification of the licensing / packaging dashboard
(`src/app.py`, `src/packaging.py`).

The Python code is shallowly embedded: the session-state dictionary
`licensing_state` becomes the structure `LicensingState`; render
routines that only read widget values into local variables become pure
functions returning the (unchanged) state together with those locals;
the page router becomes a step function on page-name strings; the
manifest/package generators become pure functions of their inputs with
the wall clock (`datetime.now().isoformat()`) passed in as an explicit
string parameter; `json.dumps(..., indent=2)` becomes an explicit
string serializer.  Definitions from `app.py` live in namespace `App`,
those from `packaging.py` in namespace `Pkg`.
-/

namespace MigrationSuite

/-- The mock licensing/subscription record held in Streamlit session
state (`st.session_state.licensing_state`).  `monthly_cost` is a Python
float used for display only; it is modelled as a rational. -/
structure LicensingState where
  license_type : String
  license_valid : Bool
  license_expiry : String
  organization : String
  max_users : Int
  current_users : Int
  monthly_credits : Int
  used_credits : Int
  subscription_tier : String
  monthly_cost : Rat
  auto_renewal : Bool
  features_enabled : List String
  deriving Repr, DecidableEq

namespace App

/-- Default `licensing_state` installed by the top-level session-state
initialization in `app.py` (lines 20-47). -/
def defaultLicensingState : LicensingState :=
  { license_type := "Enterprise"
    license_valid := true
    license_expiry := "2025-12-31"
    organization := "Global Corp Inc."
    max_users := 25
    current_users := 15
    monthly_credits := 10000
    used_credits := 8500
    subscription_tier := "Enterprise Plus"
    monthly_cost := 2450
    auto_renewal := true
    features_enabled :=
      [ "HRP1000/HRP1001 Processing (Foundation)"
      , "PA0001/PA0002/PA0006/PA0105 Processing (Employee)"
      , "PA0008/PA0014 Processing (Payroll)"
      , "Advanced Data Validation"
      , "Migration Analytics"
      , "Custom Report Generation"
      , "API Access"
      , "Priority Support"
      , "Audit Trail"
      , "Encrypted Package Export"
      , "Multi-tenant Support" ] }

end App

namespace Pkg

/-- Default `licensing_state` installed by `init_licensing_state` in
`packaging.py` (lines 16-43). -/
def defaultLicensingState : LicensingState :=
  { license_type := "Enterprise"
    license_valid := true
    license_expiry := "2025-12-31"
    organization := "Global Corp Inc."
    max_users := 25
    current_users := 15
    monthly_credits := 10000
    used_credits := 8500
    subscription_tier := "Enterprise Plus"
    monthly_cost := 2450
    auto_renewal := true
    features_enabled :=
      [ "Foundation Data Processing"
      , "Employee Data Management"
      , "Payroll Data Processing"
      , "Advanced Analytics"
      , "Custom Reports"
      , "API Access"
      , "Priority Support"
      , "Audit Trail"
      , "Encrypted Packaging"
      , "Multi-tenant Support" ] }

/-- Result record of `get_licensing_system_status` (`packaging.py`
lines 487-498). -/
structure SystemStatus where
  available : Bool
  license_valid : Bool
  subscription_tier : String
  credits_remaining : Int
  users_active : Int
  deriving Repr, DecidableEq

/-- `get_licensing_system_status` (`packaging.py` lines 487-498).
`init_licensing_state` guarantees a state exists; the state read from
the session is the explicit argument here. -/
def get_licensing_system_status (licensing_state : LicensingState) :
    SystemStatus :=
  { available := true
    license_valid := licensing_state.license_valid
    subscription_tier := licensing_state.subscription_tier
    credits_remaining :=
      licensing_state.monthly_credits - licensing_state.used_credits
    users_active := licensing_state.current_users }

end Pkg

/-! JSON serialization helpers, mirroring `json.dumps(..., indent=2)`.
Braces are written via the escapes `\x7b` and `\x7d`. -/

/-- Opening brace of a JSON object. -/
def lbrace : String := "\x7b"

/-- Closing brace of a JSON object. -/
def rbrace : String := "\x7d"

/-- Escape of a single character inside a JSON string literal. -/
def escChar (c : Char) : String :=
  if c = '"' then "\\\""
  else if c = '\\' then "\\\\"
  else if c = '\n' then "\\n"
  else if c = '\t' then "\\t"
  else if c = '\r' then "\\r"
  else String.singleton c

/-- A JSON string literal with its quotes. -/
def jsonStr (s : String) : String :=
  "\"" ++ String.join (s.toList.map escChar) ++ "\""

/-- A JSON boolean literal. -/
def jsonBool (b : Bool) : String := if b then "true" else "false"

/-- A JSON array of strings as `json.dumps(indent=2)` prints it, where
`pad` is the indentation of the line holding the key. -/
def jsonStrList (pad : String) : List String → String
  | [] => "[]"
  | xs =>
    "[\n" ++
      String.intercalate ",\n" (xs.map (fun x => pad ++ "  " ++ jsonStr x)) ++
      "\n" ++ pad ++ "]"

/-- The `security` block of the generated package dictionaries. -/
structure SecurityBlock where
  encrypted : Bool
  signature : String
  encryption_level : String
  deriving Repr, DecidableEq

/-- The `license` block of the generated package dictionaries. -/
structure LicenseBlock where
  type : String
  valid_until : String
  organization : String
  deriving Repr, DecidableEq

/-- The `package_info` block of the generated manifests. -/
structure PackageInfo where
  name : String
  version : String
  build_date : String
  license_type : String
  deriving Repr, DecidableEq

/-- The `system_requirements` block of the generated manifests. -/
structure SystemRequirements where
  python_version : String
  memory : String
  storage : String
  dependencies : List String
  deriving Repr, DecidableEq

namespace App

/-- The `sap_modules` block of `generate_migration_package`. -/
structure SapModules where
  foundation_hrp1000_hrp1001 : Bool
  employee_pa0001_pa0002_pa0006_pa0105 : Bool
  payroll_pa0008_pa0014 : Bool
  deriving Repr, DecidableEq

/-- The `migration_scope` block of `generate_migration_package`. -/
structure MigrationScope where
  source_system : String
  target_system : String
  estimated_records : String
  deriving Repr, DecidableEq

/-- The `package_contents` dictionary built by
`generate_migration_package` (`app.py` lines 447-471). -/
structure PackageContents where
  package_name : String
  version : String
  generated_at : String
  sap_modules : SapModules
  migration_scope : MigrationScope
  security : SecurityBlock
  license : LicenseBlock
  deriving Repr, DecidableEq

/-- `generate_migration_package` (`app.py` lines 441-482), with
`datetime.now().isoformat()` passed in as the explicit parameter
`now`.  Returns the `package_contents` dictionary; serialization to
the downloadable payload is `PackageContents.toJson`. -/
def generate_migration_package (package_name : String)
    (include_foundation include_employee include_payroll : Bool)
    (now : String) : PackageContents :=
  { package_name := package_name
    version := "2.1.0"
    generated_at := now
    sap_modules :=
      { foundation_hrp1000_hrp1001 := include_foundation
        employee_pa0001_pa0002_pa0006_pa0105 := include_employee
        payroll_pa0008_pa0014 := include_payroll }
    migration_scope :=
      { source_system := "SAP HCM"
        target_system := "SuccessFactors"
        estimated_records := "1400+ employees" }
    security :=
      { encrypted := true
        signature := "SHA256:abc123def456..."
        encryption_level := "AES-256" }
    license :=
      { type := "Enterprise"
        valid_until := "2025-12-31"
        organization := "Global Corp Inc." } }

/-- `package_json = json.dumps(package_contents, indent=2)`
(`app.py` line 473). -/
def PackageContents.toJson (p : PackageContents) : String :=
  lbrace ++ "\n" ++
  "  \"package_name\": " ++ jsonStr p.package_name ++ ",\n" ++
  "  \"version\": " ++ jsonStr p.version ++ ",\n" ++
  "  \"generated_at\": " ++ jsonStr p.generated_at ++ ",\n" ++
  "  \"sap_modules\": " ++ lbrace ++ "\n" ++
  "    \"foundation_hrp1000_hrp1001\": " ++
      jsonBool p.sap_modules.foundation_hrp1000_hrp1001 ++ ",\n" ++
  "    \"employee_pa0001_pa0002_pa0006_pa0105\": " ++
      jsonBool p.sap_modules.employee_pa0001_pa0002_pa0006_pa0105 ++ ",\n" ++
  "    \"payroll_pa0008_pa0014\": " ++
      jsonBool p.sap_modules.payroll_pa0008_pa0014 ++ "\n" ++
  "  " ++ rbrace ++ ",\n" ++
  "  \"migration_scope\": " ++ lbrace ++ "\n" ++
  "    \"source_system\": " ++ jsonStr p.migration_scope.source_system ++ ",\n" ++
  "    \"target_system\": " ++ jsonStr p.migration_scope.target_system ++ ",\n" ++
  "    \"estimated_records\": " ++ jsonStr p.migration_scope.estimated_records ++ "\n" ++
  "  " ++ rbrace ++ ",\n" ++
  "  \"security\": " ++ lbrace ++ "\n" ++
  "    \"encrypted\": " ++ jsonBool p.security.encrypted ++ ",\n" ++
  "    \"signature\": " ++ jsonStr p.security.signature ++ ",\n" ++
  "    \"encryption_level\": " ++ jsonStr p.security.encryption_level ++ "\n" ++
  "  " ++ rbrace ++ ",\n" ++
  "  \"license\": " ++ lbrace ++ "\n" ++
  "    \"type\": " ++ jsonStr p.license.type ++ ",\n" ++
  "    \"valid_until\": " ++ jsonStr p.license.valid_until ++ ",\n" ++
  "    \"organization\": " ++ jsonStr p.license.organization ++ "\n" ++
  "  " ++ rbrace ++ "\n" ++
  rbrace

/-- The `manifest` dictionary built by `generate_package_manifest`
(`app.py` lines 486-505). -/
structure Manifest where
  package_info : PackageInfo
  system_requirements : SystemRequirements
  sap_capabilities : List String
  checksum : String
  deriving Repr, DecidableEq

/-- `generate_package_manifest` (`app.py` lines 484-515), with
`datetime.now().isoformat()` passed in as `now`. -/
def generate_package_manifest (package_name : String)
    (licensing_state : LicensingState) (now : String) : Manifest :=
  { package_info :=
      { name := package_name
        version := "2.1.0"
        build_date := now
        license_type := licensing_state.license_type }
    system_requirements :=
      { python_version := ">=3.8"
        memory := "8GB RAM recommended"
        storage := "2GB available space"
        dependencies := ["streamlit>=1.28.0", "pandas>=2.0.0", "plotly>=5.0.0"] }
    sap_capabilities :=
      [ "HRP1000/HRP1001 Processing"
      , "PA0001/PA0002/PA0006/PA0105 Processing"
      , "PA0008/PA0014 Processing" ]
    checksum := "sha256:demo_manifest_checksum" }

/-- `manifest_json = json.dumps(manifest, indent=2)`
(`app.py` line 507). -/
def Manifest.toJson (m : Manifest) : String :=
  lbrace ++ "\n" ++
  "  \"package_info\": " ++ lbrace ++ "\n" ++
  "    \"name\": " ++ jsonStr m.package_info.name ++ ",\n" ++
  "    \"version\": " ++ jsonStr m.package_info.version ++ ",\n" ++
  "    \"build_date\": " ++ jsonStr m.package_info.build_date ++ ",\n" ++
  "    \"license_type\": " ++ jsonStr m.package_info.license_type ++ "\n" ++
  "  " ++ rbrace ++ ",\n" ++
  "  \"system_requirements\": " ++ lbrace ++ "\n" ++
  "    \"python_version\": " ++ jsonStr m.system_requirements.python_version ++ ",\n" ++
  "    \"memory\": " ++ jsonStr m.system_requirements.memory ++ ",\n" ++
  "    \"storage\": " ++ jsonStr m.system_requirements.storage ++ ",\n" ++
  "    \"dependencies\": " ++ jsonStrList "    " m.system_requirements.dependencies ++ "\n" ++
  "  " ++ rbrace ++ ",\n" ++
  "  \"sap_capabilities\": " ++ jsonStrList "  " m.sap_capabilities ++ ",\n" ++
  "  \"checksum\": " ++ jsonStr m.checksum ++ "\n" ++
  rbrace

end App

namespace Pkg

/-- The `components` block of `generate_demo_package`. -/
structure Components where
  foundation_module : Bool
  employee_module : Bool
  payroll_module : Bool
  deriving Repr, DecidableEq

/-- The `package_contents` dictionary built by `generate_demo_package`
(`packaging.py` lines 402-421). -/
structure PackageContents where
  package_name : String
  version : String
  generated_at : String
  components : Components
  security : SecurityBlock
  license : LicenseBlock
  deriving Repr, DecidableEq

/-- `generate_demo_package` (`packaging.py` lines 394-436), with
`datetime.now().isoformat()` passed in as `now`. -/
def generate_demo_package (package_name : String)
    (include_foundation include_employee include_payroll : Bool)
    (now : String) : PackageContents :=
  { package_name := package_name
    version := "2.1.0"
    generated_at := now
    components :=
      { foundation_module := include_foundation
        employee_module := include_employee
        payroll_module := include_payroll }
    security :=
      { encrypted := true
        signature := "SHA256:abc123..."
        encryption_level := "AES-256" }
    license :=
      { type := "Enterprise"
        valid_until := "2025-12-31"
        organization := "Global Corp Inc." } }

/-- `package_json = json.dumps(package_contents, indent=2)`
(`packaging.py` line 424). -/
def PackageContents.toJson (p : PackageContents) : String :=
  lbrace ++ "\n" ++
  "  \"package_name\": " ++ jsonStr p.package_name ++ ",\n" ++
  "  \"version\": " ++ jsonStr p.version ++ ",\n" ++
  "  \"generated_at\": " ++ jsonStr p.generated_at ++ ",\n" ++
  "  \"components\": " ++ lbrace ++ "\n" ++
  "    \"foundation_module\": " ++ jsonBool p.components.foundation_module ++ ",\n" ++
  "    \"employee_module\": " ++ jsonBool p.components.employee_module ++ ",\n" ++
  "    \"payroll_module\": " ++ jsonBool p.components.payroll_module ++ "\n" ++
  "  " ++ rbrace ++ ",\n" ++
  "  \"security\": " ++ lbrace ++ "\n" ++
  "    \"encrypted\": " ++ jsonBool p.security.encrypted ++ ",\n" ++
  "    \"signature\": " ++ jsonStr p.security.signature ++ ",\n" ++
  "    \"encryption_level\": " ++ jsonStr p.security.encryption_level ++ "\n" ++
  "  " ++ rbrace ++ ",\n" ++
  "  \"license\": " ++ lbrace ++ "\n" ++
  "    \"type\": " ++ jsonStr p.license.type ++ ",\n" ++
  "    \"valid_until\": " ++ jsonStr p.license.valid_until ++ ",\n" ++
  "    \"organization\": " ++ jsonStr p.license.organization ++ "\n" ++
  "  " ++ rbrace ++ "\n" ++
  rbrace

/-- The `manifest` dictionary built by `generate_package_manifest`
(`packaging.py` lines 440-455). -/
structure Manifest where
  package_info : PackageInfo
  system_requirements : SystemRequirements
  features : List String
  checksum : String
  deriving Repr, DecidableEq

/-- `generate_package_manifest` (`packaging.py` lines 438-465), with
`datetime.now().isoformat()` passed in as `now`. -/
def generate_package_manifest (package_name : String)
    (licensing_state : LicensingState) (now : String) : Manifest :=
  { package_info :=
      { name := package_name
        version := "2.1.0"
        build_date := now
        license_type := licensing_state.license_type }
    system_requirements :=
      { python_version := ">=3.8"
        memory := "4GB RAM minimum"
        storage := "500MB available space"
        dependencies := ["streamlit>=1.28.0", "pandas>=1.5.0", "plotly>=5.0.0"] }
    features := licensing_state.features_enabled
    checksum := "sha256:demo_checksum_value" }

/-- `manifest_json = json.dumps(manifest, indent=2)`
(`packaging.py` line 457). -/
def Manifest.toJson (m : Manifest) : String :=
  lbrace ++ "\n" ++
  "  \"package_info\": " ++ lbrace ++ "\n" ++
  "    \"name\": " ++ jsonStr m.package_info.name ++ ",\n" ++
  "    \"version\": " ++ jsonStr m.package_info.version ++ ",\n" ++
  "    \"build_date\": " ++ jsonStr m.package_info.build_date ++ ",\n" ++
  "    \"license_type\": " ++ jsonStr m.package_info.license_type ++ "\n" ++
  "  " ++ rbrace ++ ",\n" ++
  "  \"system_requirements\": " ++ lbrace ++ "\n" ++
  "    \"python_version\": " ++ jsonStr m.system_requirements.python_version ++ ",\n" ++
  "    \"memory\": " ++ jsonStr m.system_requirements.memory ++ ",\n" ++
  "    \"storage\": " ++ jsonStr m.system_requirements.storage ++ ",\n" ++
  "    \"dependencies\": " ++ jsonStrList "    " m.system_requirements.dependencies ++ "\n" ++
  "  " ++ rbrace ++ ",\n" ++
  "  \"features\": " ++ jsonStrList "  " m.features ++ ",\n" ++
  "  \"checksum\": " ++ jsonStr m.checksum ++ "\n" ++
  rbrace

end Pkg

namespace App

/-- The five render routines the dispatcher in `main` (`app.py` lines
537-550) can select. -/
inductive RenderRoutine where
  | showMainPage
  | showLicenseDetails
  | showBillingUsage
  | showPackagingTools
  | showConfiguration
  deriving Repr, DecidableEq

/-- The dispatcher in `main` (`app.py` lines 537-550): an `if`/`elif`
chain on `st.session_state.current_page` with no `else` branch, so an
unrecognized page name selects no render routine. -/
def renderCurrent (current_page : String) : Option RenderRoutine :=
  if current_page = "main" then some .showMainPage
  else if current_page = "license_details" then some .showLicenseDetails
  else if current_page = "billing" then some .showBillingUsage
  else if current_page = "packaging" then some .showPackagingTools
  else if current_page = "configuration" then some .showConfiguration
  else none

/-- Session-state initialization of `current_page` (`app.py` lines
17-18). -/
def initialPage : String := "main"

/-- The five page names covered by the dispatcher. -/
def declaredPages : List String :=
  ["main", "license_details", "billing", "packaging", "configuration"]

/-- The four detail page names. -/
def detailPages : List String :=
  ["license_details", "billing", "packaging", "configuration"]

/-- Button-click handlers that write `st.session_state.current_page`:
the four navigation buttons on the main page (`app.py` lines 104-122)
and the back button of each detail page (`app.py` lines 141, 205,
288, 359). -/
inductive NavAction where
  | licenseFeaturesButton
  | packageDeployButton
  | billingUsageButton
  | subscriptionSettingsButton
  | backLicense
  | backBilling
  | backPackaging
  | backConfiguration
  deriving Repr, DecidableEq

/-- One router transition: a button's write to `current_page` can fire
only while the page whose render routine draws that button is the
current page; `none` means the button is not on screen. -/
def step (page : String) (a : NavAction) : Option String :=
  match a with
  | .licenseFeaturesButton =>
      if page = "main" then some "license_details" else none
  | .packageDeployButton =>
      if page = "main" then some "packaging" else none
  | .billingUsageButton =>
      if page = "main" then some "billing" else none
  | .subscriptionSettingsButton =>
      if page = "main" then some "configuration" else none
  | .backLicense =>
      if page = "license_details" then some "main" else none
  | .backBilling =>
      if page = "billing" then some "main" else none
  | .backPackaging =>
      if page = "packaging" then some "main" else none
  | .backConfiguration =>
      if page = "configuration" then some "main" else none

/-- The navigation button on the main page that targets a given detail
page (`app.py` lines 104-122). -/
def navButtonFor (target : String) : NavAction :=
  if target = "license_details" then .licenseFeaturesButton
  else if target = "packaging" then .packageDeployButton
  else if target = "billing" then .billingUsageButton
  else .subscriptionSettingsButton

/-- The back button of a given detail page. -/
def backButtonFor (page : String) : NavAction :=
  if page = "license_details" then .backLicense
  else if page = "billing" then .backBilling
  else if page = "packaging" then .backPackaging
  else .backConfiguration

/-- Whether an action is one of the four back buttons. -/
def NavAction.isBack : NavAction → Bool
  | .backLicense | .backBilling | .backPackaging | .backConfiguration => true
  | _ => false

/-- Package size estimate computed by `show_packaging_tools`
(`app.py` lines 328-332). -/
def show_packaging_tools_total_size
    (include_foundation include_employee include_payroll : Bool) : Nat :=
  let base_size := 45
  let foundation_size := if include_foundation then 28 else 0
  let employee_size := if include_employee then 32 else 0
  let payroll_size := if include_payroll then 24 else 0
  base_size + foundation_size + employee_size + payroll_size

/-- The `validation_results` dictionary of `validate_package_integrity`
(`app.py` lines 523-530); a Python dict preserves insertion order, so it
is modelled as an association list in source order. -/
def validation_results : List (String × String) :=
  [ ("Digital Signature", "Valid")
  , ("Encryption", "AES-256 confirmed")
  , ("Dependencies", "All satisfied")
  , ("License", "Valid until 2025-12-31")
  , ("Checksum", "Verified")
  , ("SAP Modules", "All modules intact") ]

/-- Current values of the widgets drawn by `show_configuration`
(`app.py` lines 355-439): the back button and the four checkboxes.
`st.checkbox` returns the value the user last set (its `value=`
argument only seeds the first render). -/
structure ConfigWidgetValues where
  back_clicked : Bool
  auto_renewal : Bool
  usage_alerts : Bool
  billing_reminders : Bool
  system_updates : Bool
  deriving Repr, DecidableEq

/-- The local variables `show_configuration` binds from its
checkboxes. -/
structure ConfigLocals where
  auto_renewal : Bool
  usage_alerts : Bool
  billing_reminders : Bool
  system_updates : Bool
  deriving Repr, DecidableEq

/-- State effect of `show_configuration` (`app.py` lines 355-439): each
checkbox result is bound to a local variable; no assignment to any
field of `licensing_state` occurs anywhere in the routine, so the
stored record is returned unchanged; the back button (line 359) writes
`current_page = "main"`. -/
def show_configuration (w : ConfigWidgetValues)
    (licensing_state : LicensingState) (current_page : String) :
    LicensingState × String × ConfigLocals :=
  ( licensing_state
  , if w.back_clicked then "main" else current_page
  , { auto_renewal := w.auto_renewal
      usage_alerts := w.usage_alerts
      billing_reminders := w.billing_reminders
      system_updates := w.system_updates } )

end App

namespace Pkg

/-- Package size estimate computed by `render_packaging_tools`
(`packaging.py` lines 292-296). -/
def render_packaging_tools_total_size
    (include_foundation include_employee include_payroll : Bool) : Nat :=
  let base_size := 50
  let foundation_size := if include_foundation then 25 else 0
  let employee_size := if include_employee then 30 else 0
  let payroll_size := if include_payroll then 20 else 0
  base_size + foundation_size + employee_size + payroll_size

/-- The `validation_results` dictionary of `validate_package_integrity`
(`packaging.py` lines 473-480), in source order. -/
def validation_results : List (String × String) :=
  [ ("Digital Signature", "✅ Valid")
  , ("Encryption", "✅ AES-256 confirmed")
  , ("Dependencies", "✅ All satisfied")
  , ("License", "✅ Valid until 2025-12-31")
  , ("Checksum", "✅ Verified")
  , ("Module Integrity", "✅ All modules intact") ]

/-- Current values of the checkboxes drawn by
`render_license_configuration` (`packaging.py` lines 319-392). -/
structure ConfigWidgetValues where
  auto_renewal : Bool
  usage_alerts : Bool
  billing_reminders : Bool
  security_updates : Bool
  deriving Repr, DecidableEq

/-- The local variables `render_license_configuration` binds from its
checkboxes. -/
structure ConfigLocals where
  auto_renewal : Bool
  usage_alerts : Bool
  billing_reminders : Bool
  security_updates : Bool
  deriving Repr, DecidableEq

/-- State effect of `render_license_configuration` (`packaging.py`
lines 319-392): each checkbox result is bound to a local variable; no
assignment to any field of `licensing_state` occurs, so the stored
record is returned unchanged. -/
def render_license_configuration (w : ConfigWidgetValues)
    (licensing_state : LicensingState) : LicensingState × ConfigLocals :=
  ( licensing_state
  , { auto_renewal := w.auto_renewal
      usage_alerts := w.usage_alerts
      billing_reminders := w.billing_reminders
      security_updates := w.security_updates } )

end Pkg

/-- Restatement of the spec sentence for the size estimate, for
comparison with the source computation: a fixed base size plus the sum
of the per-module constant sizes of exactly the modules whose flag is
true. -/
def specTotalSize (base : Nat) (modules : List (Bool × Nat)) : Nat :=
  base + ((modules.filter Prod.fst).map Prod.snd).sum

/-- C2: for every LicensingState, the status aggregator returns
`credits_remaining = monthly_credits - used_credits` exactly, with no
clamping; in particular `monthly_credits = 10000`,
`used_credits = 10500` yields `-500`. -/
theorem c2_credits_remaining_exact :
    (∀ s : LicensingState,
      (Pkg.get_licensing_system_status s).credits_remaining =
        s.monthly_credits - s.used_credits) ∧
    (Pkg.get_licensing_system_status
      { Pkg.defaultLicensingState with
          monthly_credits := 10000, used_credits := 10500
      }).credits_remaining = -500 := by
  refine ⟨fun s => rfl, ?_⟩
  decide

/-- C10: for every LicensingState, including ones with
`license_valid = false` or an expired license, the status aggregator
returns `available = true`; the field is a constant, independent of
the state. -/
theorem c10_available_constant_true :
    (∀ s : LicensingState,
      (Pkg.get_licensing_system_status s).available = true) ∧
    (Pkg.get_licensing_system_status
      { Pkg.defaultLicensingState with
          license_valid := false, license_expiry := "1999-01-01"
      }).available = true :=
  ⟨fun _ => rfl, rfl⟩

/-- C1 counterexample: in a session whose LicensingState carries
`license_type = "Trial"`, the package payload's license block still
holds `"Enterprise"`: the generator hardcodes the block instead of
copying it from the state, so the claimed equality with the state's
fields fails. -/
theorem c1_license_snapshot_counterexample :
    (App.generate_migration_package "SAP_Migration_Suite_v2.1" true true false
        "2024-09-22T12:00:00").license.type = "Enterprise" ∧
    ({ App.defaultLicensingState with license_type := "Trial" }
        : LicensingState).license_type = "Trial" ∧
    ¬ ((App.generate_migration_package "SAP_Migration_Suite_v2.1" true true false
        "2024-09-22T12:00:00").license.type =
      ({ App.defaultLicensingState with license_type := "Trial" }
        : LicensingState).license_type) := by
  refine ⟨rfl, rfl, ?_⟩
  decide

/-- C1 (amended): for every package name, module-flag assignment and
clock instant, the license block of the payloads of
`generate_migration_package` and `generate_demo_package` is the
hardcoded constant (type `Enterprise`, expiry `2025-12-31`,
organization `Global Corp Inc.`), not copied from any LicensingState;
that constant coincides with the license fields of the default state;
and the manifest generators copy exactly one license field,
`license_type`, from the state argument. -/
theorem c1_license_block_hardcoded :
    (∀ (n : String) (f e p : Bool) (now : String),
      (App.generate_migration_package n f e p now).license =
        { type := "Enterprise", valid_until := "2025-12-31",
          organization := "Global Corp Inc." } ∧
      (Pkg.generate_demo_package n f e p now).license =
        { type := "Enterprise", valid_until := "2025-12-31",
          organization := "Global Corp Inc." }) ∧
    ({ type := App.defaultLicensingState.license_type
       valid_until := App.defaultLicensingState.license_expiry
       organization := App.defaultLicensingState.organization }
        : LicenseBlock) =
      { type := "Enterprise", valid_until := "2025-12-31",
        organization := "Global Corp Inc." } ∧
    (∀ (n : String) (s : LicensingState) (now : String),
      (App.generate_package_manifest n s now).package_info.license_type =
        s.license_type ∧
      (Pkg.generate_package_manifest n s now).package_info.license_type =
        s.license_type) :=
  ⟨fun _ _ _ _ _ => ⟨rfl, rfl⟩, rfl, fun _ _ _ => ⟨rfl, rfl⟩⟩

/-- C3 counterexample: running the configuration view with the
Auto-Renewal checkbox switched to `false` on the default state (whose
`auto_renewal` is `true`) leaves the stored `auto_renewal` at `true`
while the local variable holds `false`: the edit is not persisted back
into the state record, contrary to the claimed exception. -/
theorem c3_auto_renewal_counterexample :
    (App.show_configuration
        { back_clicked := false, auto_renewal := false, usage_alerts := true,
          billing_reminders := true, system_updates := true }
        App.defaultLicensingState "configuration").1.auto_renewal = true ∧
    (App.show_configuration
        { back_clicked := false, auto_renewal := false, usage_alerts := true,
          billing_reminders := true, system_updates := true }
        App.defaultLicensingState "configuration").2.2.auto_renewal = false ∧
    (Pkg.render_license_configuration
        { auto_renewal := false, usage_alerts := true,
          billing_reminders := true, security_updates := true }
        Pkg.defaultLicensingState).1.auto_renewal = true :=
  ⟨rfl, rfl, rfl⟩

/-- C3 (amended): for every run of the UI control callbacks on a
LicensingState, checkbox/selectbox edits feed local variables only and
no field of the stored LicensingState record is mutated —
`auto_renewal` included, which is likewise not persisted back. -/
theorem c3_state_never_mutated :
    (∀ (w : App.ConfigWidgetValues) (s : LicensingState) (page : String),
      (App.show_configuration w s page).1 = s) ∧
    (∀ (w : Pkg.ConfigWidgetValues) (s : LicensingState),
      (Pkg.render_license_configuration w s).1 = s) :=
  ⟨fun _ _ _ => rfl, fun _ _ => rfl⟩

/-- C4: the dispatcher maps each of the five declared page names to
exactly one render routine (pairwise distinct routines), with no
fallback: every unrecognized page name selects no render routine at
all. -/
theorem c4_dispatch_totality :
    App.renderCurrent "main" = some App.RenderRoutine.showMainPage ∧
    App.renderCurrent "license_details" =
      some App.RenderRoutine.showLicenseDetails ∧
    App.renderCurrent "billing" = some App.RenderRoutine.showBillingUsage ∧
    App.renderCurrent "packaging" = some App.RenderRoutine.showPackagingTools ∧
    App.renderCurrent "configuration" =
      some App.RenderRoutine.showConfiguration ∧
    ∀ page : String, page ∉ App.declaredPages →
      App.renderCurrent page = none := by
  refine ⟨rfl, rfl, rfl, rfl, rfl, ?_⟩
  intro page hp
  simp only [App.declaredPages, List.mem_cons, List.not_mem_nil, or_false,
    not_or] at hp
  obtain ⟨h1, h2, h3, h4, h5⟩ := hp
  simp [App.renderCurrent, h1, h2, h3, h4, h5]

/-- C4 witness: the dispatcher at the concrete pages `"main"` and the
unrecognized `"bogus_page"`. -/
theorem c4_dispatch_totality_witness :
    App.renderCurrent "main" = some App.RenderRoutine.showMainPage ∧
    App.renderCurrent "bogus_page" = none :=
  ⟨c4_dispatch_totality.1,
   c4_dispatch_totality.2.2.2.2.2 "bogus_page" (by decide)⟩

/-- C5: the initial page is `main`; for each detail page its navigation
button moves `main` to it and its back button moves it to `main`; and
every transition of the router is either `main` → detail via that
detail's navigation button or detail → `main` via that detail's back
button — so `main` is reachable only via a back action from a detail
page, detail pages are reachable only from `main` via a navigation
action, and no detail-to-detail transition exists. -/
theorem c5_router_invariant :
    App.initialPage = "main" ∧
    (∀ d ∈ App.detailPages,
      App.step "main" (App.navButtonFor d) = some d ∧
      App.step d (App.backButtonFor d) = some "main") ∧
    (∀ (p : String) (a : App.NavAction) (q : String),
      App.step p a = some q →
        (p = "main" ∧ q ∈ App.detailPages ∧ a = App.navButtonFor q ∧
          App.NavAction.isBack a = false) ∨
        (p ∈ App.detailPages ∧ q = "main" ∧ a = App.backButtonFor p ∧
          App.NavAction.isBack a = true)) := by
  refine ⟨rfl, ?_, ?_⟩
  · intro d hd
    simp only [App.detailPages, List.mem_cons, List.not_mem_nil,
      or_false] at hd
    rcases hd with rfl | rfl | rfl | rfl <;> exact ⟨rfl, rfl⟩
  · intro p a q h
    cases a <;> simp only [App.step] at h <;> split at h <;>
      simp_all <;> subst h <;> decide

/-- C5 witness: the round trip `main` → `billing` → `main` at concrete
inputs, and the classification of the concrete back transition. -/
theorem c5_router_invariant_witness :
    (App.step "main" (App.navButtonFor "billing") = some "billing" ∧
     App.step "billing" (App.backButtonFor "billing") = some "main") ∧
    (("billing" = "main" ∧ "main" ∈ App.detailPages ∧
       App.NavAction.backBilling = App.navButtonFor "main" ∧
       App.NavAction.isBack App.NavAction.backBilling = false) ∨
     ("billing" ∈ App.detailPages ∧ "main" = "main" ∧
       App.NavAction.backBilling = App.backButtonFor "billing" ∧
       App.NavAction.isBack App.NavAction.backBilling = true)) :=
  ⟨c5_router_invariant.2.1 "billing" (by decide),
   c5_router_invariant.2.2 "billing" App.NavAction.backBilling "main"
     (by decide)⟩

/-- C6: with equal inputs and a frozen clock (equal `now` strings), two
calls to package or manifest generation produce byte-identical
serialized payloads — there is no random or monotonically increasing
id field. -/
theorem c6_generation_deterministic
    (n₁ n₂ : String) (f₁ f₂ e₁ e₂ p₁ p₂ : Bool)
    (s₁ s₂ : LicensingState) (t₁ t₂ : String)
    (hn : n₁ = n₂) (hf : f₁ = f₂) (he : e₁ = e₂) (hp : p₁ = p₂)
    (hs : s₁ = s₂) (ht : t₁ = t₂) :
    (App.generate_migration_package n₁ f₁ e₁ p₁ t₁).toJson =
      (App.generate_migration_package n₂ f₂ e₂ p₂ t₂).toJson ∧
    (App.generate_package_manifest n₁ s₁ t₁).toJson =
      (App.generate_package_manifest n₂ s₂ t₂).toJson ∧
    (Pkg.generate_demo_package n₁ f₁ e₁ p₁ t₁).toJson =
      (Pkg.generate_demo_package n₂ f₂ e₂ p₂ t₂).toJson ∧
    (Pkg.generate_package_manifest n₁ s₁ t₁).toJson =
      (Pkg.generate_package_manifest n₂ s₂ t₂).toJson := by
  subst hn hf he hp hs ht
  exact ⟨rfl, rfl, rfl, rfl⟩

/-- C6 witness: two generation calls at identical concrete inputs and a
frozen concrete instant yield identical serialized payloads. -/
theorem c6_generation_deterministic_witness :
    (App.generate_migration_package "SAP_Migration_Suite_v2.1" true true false
        "2024-09-22T12:00:00").toJson =
      (App.generate_migration_package "SAP_Migration_Suite_v2.1" true true false
        "2024-09-22T12:00:00").toJson ∧
    (App.generate_package_manifest "SAP_Migration_Suite_v2.1"
        App.defaultLicensingState "2024-09-22T12:00:00").toJson =
      (App.generate_package_manifest "SAP_Migration_Suite_v2.1"
        App.defaultLicensingState "2024-09-22T12:00:00").toJson ∧
    (Pkg.generate_demo_package "SAP_Migration_Suite_v2.1" true true false
        "2024-09-22T12:00:00").toJson =
      (Pkg.generate_demo_package "SAP_Migration_Suite_v2.1" true true false
        "2024-09-22T12:00:00").toJson ∧
    (Pkg.generate_package_manifest "SAP_Migration_Suite_v2.1"
        App.defaultLicensingState "2024-09-22T12:00:00").toJson =
      (Pkg.generate_package_manifest "SAP_Migration_Suite_v2.1"
        App.defaultLicensingState "2024-09-22T12:00:00").toJson :=
  c6_generation_deterministic
    "SAP_Migration_Suite_v2.1" "SAP_Migration_Suite_v2.1"
    true true true true false false
    App.defaultLicensingState App.defaultLicensingState
    "2024-09-22T12:00:00" "2024-09-22T12:00:00"
    rfl rfl rfl rfl rfl rfl

/-- C7: for every assignment of the three module flags, the displayed
package size estimate equals the fixed base size plus the sum of the
fixed per-module sizes of exactly the modules whose flag is true; in
particular with foundation and employee true and payroll false it is
`base_size + foundation_size + employee_size`. -/
theorem c7_size_estimate :
    (∀ f e p : Bool,
      App.show_packaging_tools_total_size f e p =
        specTotalSize 45 [(f, 28), (e, 32), (p, 24)] ∧
      Pkg.render_packaging_tools_total_size f e p =
        specTotalSize 50 [(f, 25), (e, 30), (p, 20)]) ∧
    App.show_packaging_tools_total_size true true false = 45 + 28 + 32 ∧
    Pkg.render_packaging_tools_total_size true true false = 50 + 25 + 30 := by
  decide

/-- C8: for every assignment of the three module flags passed in, the
module section of the produced payload reports each flag verbatim; in
particular flags (true, true, false) appear exactly as given. -/
theorem c8_module_flags_verbatim :
    (∀ (n : String) (f e p : Bool) (now : String),
      (App.generate_migration_package n f e p now).sap_modules =
        { foundation_hrp1000_hrp1001 := f
          employee_pa0001_pa0002_pa0006_pa0105 := e
          payroll_pa0008_pa0014 := p } ∧
      (Pkg.generate_demo_package n f e p now).components =
        { foundation_module := f, employee_module := e,
          payroll_module := p }) ∧
    (App.generate_migration_package "SAP_Migration_Suite_v2.1" true true false
        "2024-09-22T12:00:00").sap_modules =
      { foundation_hrp1000_hrp1001 := true
        employee_pa0001_pa0002_pa0006_pa0105 := true
        payroll_pa0008_pa0014 := false } :=
  ⟨fun _ _ _ _ _ => ⟨rfl, rfl⟩, rfl⟩

/-- C9: the validation routines return exactly the 6 fixed check names
in a stable (source) order, each paired with a non-empty hardcoded
success string, independent of any package or state (they take no
input at all: the result lists are constants). -/
theorem c9_validation_checklist :
    App.validation_results.map Prod.fst =
      [ "Digital Signature", "Encryption", "Dependencies", "License",
        "Checksum", "SAP Modules" ] ∧
    Pkg.validation_results.map Prod.fst =
      [ "Digital Signature", "Encryption", "Dependencies", "License",
        "Checksum", "Module Integrity" ] ∧
    App.validation_results.length = 6 ∧
    Pkg.validation_results.length = 6 ∧
    App.validation_results.all (fun r => decide (r.2 ≠ "")) = true ∧
    Pkg.validation_results.all (fun r => decide (r.2 ≠ "")) = true := by
  decide

end MigrationSuite
